import Mathlib

/-!
Verification of SentinelScope's concurrent probing and orchestration
subsystem (scanning/ports.py, scanning/subdomains.py, scanning/takeover.py,
native.py, api.py, cli.py), shallowly embedded in Lean.

Python strings are modelled as lists of characters (`PyStr`), machine-level
string operations (`strip`, `lower`, `split`, `endswith`, `startswith`) as
structural recursions with the same observable behaviour, and the network as
explicit environment functions (per-port connect outcome, DNS resolution
outcome, HTTP fetch outcome).  Wall-clock timestamps are naturals; the scan
duration is supplied by the environment.  Python exceptions that escape a
function boundary are modelled with `Except PyErr`.
-/

namespace SentinelScope

/-- Python strings as character lists. -/
abbrev PyStr := List Char

/-- Build a `PyStr` from a Lean string literal. -/
def py (s : String) : PyStr := s.data

/-- Python `str.lower()` (ASCII range, which covers every string this code
lowercases). -/
def pyLower (s : PyStr) : PyStr := s.map Char.toLower

/-- Drop trailing characters satisfying `p` (helper for Python `strip`). -/
def dropTrailingWhile (p : Char → Bool) (s : PyStr) : PyStr :=
  (s.reverse.dropWhile p).reverse

/-- Python `str.strip()` — remove leading and trailing whitespace. -/
def pyStripWs (s : PyStr) : PyStr :=
  dropTrailingWhile Char.isWhitespace (s.dropWhile Char.isWhitespace)

/-- Python `str.strip(c)` for a single strip character `c` — remove every
leading and trailing occurrence of `c`. -/
def pyStripChar (c : Char) (s : PyStr) : PyStr :=
  dropTrailingWhile (· = c) (s.dropWhile (· = c))

/-- Python substring membership `needle in hay` — a contiguous-substring
test. -/
def pyContains (needle : PyStr) (hay : PyStr) : Bool :=
  if needle.isPrefixOf hay then true
  else
    match hay with
    | [] => false
    | _ :: t => pyContains needle t

/-- Python `s.startswith(pre)`. -/
def pyStartsWith (pre s : PyStr) : Bool := pre.isPrefixOf s

/-- Python `s.endswith(suf)` — a plain character-suffix match. -/
def pyEndsWith (suf s : PyStr) : Bool := suf.isSuffixOf s

/-- Python `s.split(c)` for a one-character separator: splits on every
occurrence, keeping empty segments (so `",".split(",") = ["", ""]`). -/
def splitOnChar (c : Char) (s : PyStr) : List PyStr :=
  match s with
  | [] => [[]]
  | a :: t =>
    let r := splitOnChar c t
    if a = c then [] :: r
    else
      match r with
      | [] => [[a]]
      | h :: t2 => (a :: h) :: t2

/-- Python `int(s)` restricted to the decimal digit strings that appear as
port numbers (other shapes raise `ValueError`, modelled as `none`). -/
def pyInt? (s : PyStr) : Option Nat :=
  if s ≠ [] ∧ s.all Char.isDigit then
    some (s.foldl (fun acc c => acc * 10 + (c.toNat - 48)) 0)
  else none

/-- Fuel-driven worker for `pyRemoveAll`; the fuel is the length of the
string, which bounds the number of steps since every step consumes at least
one character. -/
def pyRemoveAllFuel (old : PyStr) : Nat → PyStr → PyStr
  | _, [] => []
  | 0, s => s
  | fuel + 1, a :: t =>
    if old ≠ [] ∧ old.isPrefixOf (a :: t) = true then
      pyRemoveAllFuel old fuel ((a :: t).drop old.length)
    else a :: pyRemoveAllFuel old fuel t

/-- Python `s.replace(old, "")` — delete every non-overlapping occurrence of
`old`, scanning left to right (for the empty `old`, `replace` with an empty
replacement returns `s` unchanged). -/
def pyRemoveAll (old : PyStr) (s : PyStr) : PyStr :=
  pyRemoveAllFuel old s.length s

/-- Lexicographic boolean comparison on code points, matching Python string
ordering as used by `sorted` on the (ASCII) names this code sorts. -/
def strLeB : PyStr → PyStr → Bool
  | [], _ => true
  | _ :: _, [] => false
  | a :: s, b :: t =>
    if a.toNat < b.toNat then true
    else if b.toNat < a.toNat then false
    else strLeB s t

/-- Python `sorted(set(l))` on integers: de-duplicate, then sort ascending. -/
def sortedDedup (l : List Nat) : List Nat :=
  (l.dedup).insertionSort (· ≤ ·)

/-- Python `sorted(set(names))` on strings: de-duplicate, then sort. -/
def sortedDedupStr (l : List PyStr) : List PyStr :=
  (l.dedup).insertionSort (fun a b => strLeB a b = true)

/-! Data model (models.py).  `datetime` fields are naturals (wall-clock
ticks), `Dict` fields are association lists, `Optional[T]` is `Option`. -/

/-- models.py `PortResult`. -/
structure PortResult where
  port : Nat
  is_open : Bool
deriving DecidableEq

/-- models.py `PortScanResult`. -/
structure PortScanResult where
  host : PyStr
  ports_scanned : List Nat
  open_ports : List Nat
  results : List PortResult
deriving DecidableEq

/-- models.py `SubdomainsResult`.  `sources` is the insertion-ordered dict
`{source name → count}` built by `enumerate_subdomains`. -/
structure SubdomainsResult where
  root_domain : PyStr
  discovered : List PyStr
  sources : List (String × Nat)
deriving DecidableEq

/-- models.py `TLSInfo`. -/
structure TLSInfo where
  domain : PyStr
  port : Nat := 443
  valid_from : Option Nat := none
  valid_to : Option Nat := none
  days_until_expiry : Option Int := none
  subject : Option (List (PyStr × PyStr)) := none
  issuer : Option (List (PyStr × PyStr)) := none
  subject_alternative_names : List PyStr := []
  protocol : Option PyStr := none
  warnings : List PyStr := []
deriving DecidableEq

/-- models.py `HeaderFinding`. -/
structure HeaderFinding where
  header : PyStr
  present : Bool
  recommendation : Option PyStr := none
deriving DecidableEq

/-- models.py `SecurityHeadersAssessment`. -/
structure SecurityHeadersAssessment where
  url : PyStr
  findings : List HeaderFinding
  grade : PyStr
  score : Nat
deriving DecidableEq

/-- models.py `DNSAssessment`. -/
structure DNSAssessment where
  domain : PyStr
  a_records : List PyStr := []
  aaaa_records : List PyStr := []
  mx_records : List PyStr := []
  txt_records : List PyStr := []
  spf_present : Bool := false
  spf_policy : Option PyStr := none
  spf_recommendation : Option PyStr := none
  dmarc_present : Bool := false
  dmarc_policy : Option PyStr := none
  dmarc_recommendation : Option PyStr := none
deriving DecidableEq

/-- models.py `WebPreview`. -/
structure WebPreview where
  url : PyStr
  status_code : Option Nat := none
  title : Option PyStr := none
  server : Option PyStr := none
  content_type : Option PyStr := none
deriving DecidableEq

/-- models.py `TakeoverFinding`. -/
structure TakeoverFinding where
  subdomain : PyStr
  reason : PyStr
deriving DecidableEq

/-- models.py `TakeoverAssessment`. -/
structure TakeoverAssessment where
  checked_count : Nat
  flagged : List TakeoverFinding
deriving DecidableEq

/-- models.py `CORSAssessment`. -/
structure CORSAssessment where
  url : PyStr
  allow_origin : Option PyStr := none
  allow_credentials : Option Bool := none
  risks : List PyStr := []
  recommendation : Option PyStr := none
deriving DecidableEq

/-- models.py `CookieInfo`. -/
structure CookieInfo where
  name : PyStr
  secure : Bool
  http_only : Bool
  same_site : Option PyStr := none
  issues : List PyStr := []
deriving DecidableEq

/-- models.py `CookieAssessment`. -/
structure CookieAssessment where
  url : PyStr
  cookies : List CookieInfo
deriving DecidableEq

/-- models.py `WebFingerprint`. -/
structure WebFingerprint where
  url : PyStr
  server : Option PyStr := none
  waf_or_cdn : Option PyStr := none
  technologies : List PyStr := []
deriving DecidableEq

/-- models.py `DNSAxfrCheck`. -/
structure DNSAxfrCheck where
  domain : PyStr
  attempted_ns : List PyStr := []
  axfr_allowed_on : List PyStr := []
deriving DecidableEq

/-- Modelled from the spec: `SecurityTxt` is imported by
scanning/security_txt.py but missing from the models.py snapshot; its fields
are taken from that module's construction sites. -/
structure SecurityTxt where
  url : PyStr
  found : Bool
  contacts : List PyStr := []
  policy : Option PyStr := none
  expires : Option PyStr := none
deriving DecidableEq

/-- Modelled from the spec: `MixedContentReport` is imported by
scanning/mixed_content.py but missing from the models.py snapshot; its fields
are taken from that module's construction sites. -/
structure MixedContentReport where
  url : PyStr
  insecure_reference_count : Nat
  examples : List PyStr := []
deriving DecidableEq

/-- Modelled from the spec: `DNSExtras` is imported by
scanning/dns_extras.py but missing from the models.py snapshot; its fields
are taken from that module's construction sites. -/
structure DNSExtras where
  domain : PyStr
  dnssec_present : Bool
  caa_records : List PyStr := []
deriving DecidableEq

/-- models.py `DomainScanRequest`.  The snapshot of models.py lists the nine
toggles through `fingerprint_web`; api.py additionally reads
`check_security_txt`, `check_mixed_content` and `check_dnssec_caa` from the
request (the CLI exposes the same three flags), so those toggles are included
here with the same default. -/
structure DomainScanRequest where
  domain : PyStr
  scan_ports : Bool := true
  scan_subdomains : Bool := true
  analyze_headers : Bool := true
  analyze_tls : Bool := true
  analyze_dns : Bool := true
  web_preview : Bool := true
  analyze_cors : Bool := true
  analyze_cookies : Bool := true
  fingerprint_web : Bool := true
  check_security_txt : Bool := true
  check_mixed_content : Bool := true
  check_dnssec_caa : Bool := true
  port_profile : String := "top30"
  custom_ports : Option (List Nat) := none
deriving DecidableEq

/-- models.py `DomainScanResult` (the aggregate `ScanReport`), including the
`security_txt`, `mixed_content` and `dns_extras` slots passed by api.py and
cli.py when building the result. -/
structure DomainScanResult where
  domain : PyStr
  started_at : Nat
  finished_at : Nat
  subdomains : Option SubdomainsResult := none
  ports : Option PortScanResult := none
  tls : Option TLSInfo := none
  headers : Option SecurityHeadersAssessment := none
  dns : Option DNSAssessment := none
  preview : Option WebPreview := none
  takeover : Option TakeoverAssessment := none
  cors : Option CORSAssessment := none
  cookies : Option CookieAssessment := none
  web_fingerprint : Option WebFingerprint := none
  dns_axfr : Option DNSAxfrCheck := none
  security_txt : Option SecurityTxt := none
  mixed_content : Option MixedContentReport := none
  dns_extras : Option DNSExtras := none
deriving DecidableEq

/-! Port scanner (scanning/ports.py). -/

/-- ports.py `TOP_30_PORTS` (note the source constant is not itself sorted —
`scan_ports` sorts). -/
def TOP_30_PORTS : List Nat :=
  [21, 22, 23, 25, 53, 80, 110, 111, 135, 139,
   143, 443, 445, 993, 995, 1723, 3306, 3389, 5900, 8080,
   8443, 8000, 6379, 27017, 5432, 1521, 5000, 11211, 9200, 25565]

/-- The forty-port extension list that api.py and cli.py both append for the
`top100` profile. -/
def TOP100_EXTRA : List Nat :=
  [19, 37, 49, 88, 161, 162, 389, 636, 873, 1025,
   1433, 1521, 2049, 2082, 2083, 2086, 2087, 2483, 2484, 3268,
   3269, 4444, 5000, 5001, 5060, 5222, 5900, 5985, 5986, 8081,
   9000, 9090, 9200, 9300, 11211, 27017, 27018, 27019, 6379, 6380]

/-- ports.py `scan_ports`, with the network modelled as a fixed per-port
connect outcome `net : port → Bool` (`_try_connect` returns `True` on
success and `False` on timeout, refusal or other I/O failure).  The
`asyncio.Semaphore(concurrency)` bounds only how many `_try_connect`
coroutines are in flight; `asyncio.gather` returns results positionally, so
the report is a function of `net` alone — the scheduler model below makes
that argument explicit.  Ports are already integers, so `int(p)` is the
identity. -/
def scan_ports (net : Nat → Bool) (host : PyStr) (ports : List Nat) : PortScanResult :=
  let ports_list := sortedDedup ports
  let results := ports_list.map (fun p => PortResult.mk p (net p))
  { host := host
    ports_scanned := ports_list
    open_ports := (results.filter (fun r => r.is_open)).map (fun r => r.port)
    results := results }

/-! Bounded task scheduler (the `asyncio.Semaphore`/`asyncio.gather` pattern
of ports.py and subdomains.py), modelled as a small-step machine: tasks are
started in order while fewer than `L` are running, and any running task may
finish at any moment.  `asyncio.gather` assembles results by task index, so
a completed run's `done` list, re-sorted by index, recovers the task list
regardless of the interleaving and of `L`. -/

/-- State of the bounded scheduler: queued, in-flight, and settled tasks,
each tagged with its `gather` index.  In this deterministic network model a
task's value is fixed when it is created; the scheduler chooses only the
interleaving. -/
structure SchedState (α : Type) where
  pending : List (Nat × α)
  running : List (Nat × α)
  done : List (Nat × α)

/-- One scheduler transition: start the next queued task if the semaphore
has a free slot (fewer than `L` running), or finish any running task. -/
inductive SchedStep (L : Nat) : SchedState α → SchedState α → Prop where
  | start : ∀ (i : Nat) (a : α) pend run don, run.length < L →
      SchedStep L ⟨(i, a) :: pend, run, don⟩ ⟨pend, (i, a) :: run, don⟩
  | finish : ∀ (x : Nat × α) run₁ run₂ pend don,
      SchedStep L ⟨pend, run₁ ++ x :: run₂, don⟩ ⟨pend, run₁ ++ run₂, x :: don⟩

/-- Reflexive-transitive closure of scheduler steps. -/
inductive SchedExec (L : Nat) : SchedState α → SchedState α → Prop where
  | refl : ∀ s, SchedExec L s s
  | step : ∀ s t u, SchedExec L s t → SchedStep L t u → SchedExec L s u

/-- Initial scheduler state: all tasks queued in index order. -/
def initState (tasks : List α) : SchedState α := ⟨tasks.enum, [], []⟩

/-- Index ordering used by `gather` to assemble settled tasks. -/
def idxLe (p q : Nat × α) : Prop := p.1 ≤ q.1

instance : DecidableRel (@idxLe α) := fun p q => Nat.decLe p.1 q.1

instance : IsTotal (Nat × α) idxLe := ⟨fun p q => Nat.le_total p.1 q.1⟩

instance : IsTrans (Nat × α) idxLe := ⟨fun _ _ _ => Nat.le_trans⟩

/-- Strict index ordering. -/
def idxLt (p q : Nat × α) : Prop := p.1 < q.1

instance : IsAntisymm (Nat × α) idxLt :=
  ⟨fun _ _ h h2 => absurd (Nat.lt_trans h h2) (Nat.lt_irrefl _)⟩

/-- Reassemble a completed run's results in task order, as `asyncio.gather`
presents them. -/
def gather_results (done : List (Nat × α)) : List α :=
  (done.insertionSort idxLe).map Prod.snd

/-- The per-port connect tasks `scan_ports` hands to the scheduler. -/
def port_tasks (net : Nat → Bool) (ports_list : List Nat) : List PortResult :=
  ports_list.map (fun p => PortResult.mk p (net p))

/-- ports.py `scan_ports` as executed by the bounded scheduler: the report
built from whatever completion order the semaphore-gated run produced. -/
def report_of_done (host : PyStr) (ports : List Nat)
    (done : List (Nat × PortResult)) : PortScanResult :=
  let results := gather_results done
  { host := host
    ports_scanned := sortedDedup ports
    open_ports := (results.filter (fun r => r.is_open)).map (fun r => r.port)
    results := results }

/-! Python exceptions that can escape a modelled function boundary. -/

/-- Exception values observable at the surfaces modelled here. -/
inductive PyErr where
  | connectError : PyStr → PyErr
  | valueError : PyStr → PyErr
  | runtimeError : PyStr → PyErr
  | badParameter : PyStr → PyErr
deriving DecidableEq

/-! Subdomain enumerator (scanning/subdomains.py). -/

/-- subdomains.py `WORDLIST`. -/
def WORDLIST : List PyStr :=
  [py "www", py "api", py "dev", py "staging", py "test",
   py "mail", py "blog", py "app", py "cdn", py "static"]

/-- subdomains.py `_from_crtsh`.  The crt.sh interaction is the environment:
`none` models a transport or JSON-parse failure (the `except` branch returns
`[]`), `some (status, entries)` models a reply with the given HTTP status
whose parsed JSON has the given `name_value` fields.  Each entry is split on
newlines, stripped, lower-cased, and kept iff it ends with the lower-cased
root domain — a plain character-suffix match, exactly as
`n.endswith(domain.lower())` computes it.  The kept names are returned as a
sorted set. -/
def from_crtsh (resp : Option (Nat × List PyStr)) (domain : PyStr) : List PyStr :=
  match resp with
  | none => []
  | some (status, entries) =>
    if status ≠ 200 then []
    else
      sortedDedupStr
        (((entries.map (fun nv => splitOnChar '\n' nv)).flatten).filterMap
          (fun n0 =>
            let n := pyLower (pyStripWs n0)
            if pyEndsWith (pyLower domain) n then some n else none))

/-- subdomains.py `enumerate_subdomains`, with the CT reply and the per-name
DNS resolution outcome (`_resolve`: `True` iff an A-record resolution
succeeds before timeout, every `dns` exception giving `False`) supplied by
the environment.  `discovered` is the Python set `ct ∪ resolved`, returned
sorted; `sources["dns-wordlist"]` counts the wordlist candidates contained
in that merged set, exactly as `len([c for c in candidates if c in
discovered])` computes it. -/
def enumerate_subdomains (ct_response : Option (Nat × List PyStr))
    (dns_resolves : PyStr → Bool) (root_domain : PyStr) : SubdomainsResult :=
  let ct := from_crtsh ct_response root_domain
  let candidates := WORDLIST.map (fun w => w ++ ('.' :: root_domain))
  let resolved := candidates.filter (fun c => dns_resolves c)
  let discovered := sortedDedupStr (ct ++ resolved)
  { root_domain := root_domain
    discovered := discovered
    sources :=
      [("crt.sh", ct.length),
       ("dns-wordlist", (candidates.filter (fun c => discovered.contains c)).length)] }

/-! Takeover checker (scanning/takeover.py). -/

/-- An apostrophe character (used inside two signature phrases). -/
def apos : Char := Char.ofNat 39

/-- takeover.py `SIGNATURES` (phrase, vendor); apostrophes are spelled via
`apos`. -/
def SIGNATURES : List (PyStr × PyStr) :=
  [(py "There isn" ++ [apos] ++ py "t a GitHub Pages site here.", py "GitHub Pages"),
   (py "NoSuchBucket", py "AWS S3"),
   (py "The specified bucket does not exist", py "AWS S3"),
   (py "NoSuchDomain", py "Azure"),
   (py "Heroku | No such app", py "Heroku"),
   (py "There" ++ [apos] ++ py "s nothing here, yet.", py "Fastly/Netlify")]

/-- What one iteration of the takeover loop contributes for one subdomain:
`fetch sub = none` models the `httpx` GET raising (the `except` branch does
`continue`), `some text` a response body; the body is truncated to 8000
characters and the first matching signature (the inner `for`/`break`) flags
the subdomain. -/
def flag_one (fetch : PyStr → Option PyStr) (sub : PyStr) : Option TakeoverFinding :=
  match fetch sub with
  | none => none
  | some text =>
    match SIGNATURES.find? (fun sv => pyContains sv.1 (text.take 8000)) with
    | some sv => some ⟨sub, py "Potential takeover signature: " ++ sv.2⟩
    | none => none

/-- takeover.py: the `for sub in subdomains[:200]` loop, written as the
recursion it performs. -/
def takeover_scan_loop (fetch : PyStr → Option PyStr) :
    List PyStr → List TakeoverFinding
  | [] => []
  | sub :: rest =>
    match fetch sub with
    | none => takeover_scan_loop fetch rest
    | some text =>
      match SIGNATURES.find? (fun sv => pyContains sv.1 (text.take 8000)) with
      | some sv =>
        TakeoverFinding.mk sub (py "Potential takeover signature: " ++ sv.2) ::
          takeover_scan_loop fetch rest
      | none => takeover_scan_loop fetch rest

/-- takeover.py `check_takeover_candidates`. -/
def check_takeover_candidates (fetch : PyStr → Option PyStr)
    (subdomains : List PyStr) : TakeoverAssessment :=
  { checked_count := min subdomains.length 200
    flagged := takeover_scan_loop fetch (subdomains.take 200) }

/-! Native acceleration shim (native.py). -/

/-- native.py `scan_ports_native`.  `available` is the outcome of the
try-import of `sentinelscope_rs`; `rust_impl` is the compiled backend used
when the import succeeded.  When unavailable, the stub raises
`RuntimeError("Native extension not available")`. -/
def scan_ports_native (rust_impl : PyStr → List Nat → Nat → Nat → List (Nat × Bool))
    (available : Bool) (host : PyStr) (ports : List Nat) (timeout_ms : Nat)
    (concurrency : Nat) : Except PyErr (List (Nat × Bool)) :=
  if available then Except.ok (rust_impl host ports timeout_ms concurrency)
  else Except.error (PyErr.runtimeError (py "Native extension not available"))

/-- native.py `scan_ports_native_available`. -/
def scan_ports_native_available (available : Bool) : Bool := available

/-! Target normalization — the inline blocks at api.py lines 46–73 and
cli.py lines 119–143. -/

/-- The normalized scan subject built by each entry point. -/
structure Target where
  host : PyStr
  scheme : PyStr
  base_url : PyStr
deriving DecidableEq

/-- The network location `urllib.parse.urlsplit` computes for a `raw`
beginning with an explicit `http://` or `https://` scheme: everything after
the `//` up to the first of `/?#`. -/
def urlparse_netloc (raw : PyStr) : PyStr :=
  let afterScheme :=
    if pyStartsWith (py "https://") raw then raw.drop 8 else raw.drop 7
  afterScheme.takeWhile (fun c => !(c == '/' || c == '?' || c == '#'))

/-- Whether `urllib.parse.urlparse(raw)` raises for a `raw` with an explicit
`http://` or `https://` scheme: urlsplit raises
`ValueError("Invalid IPv6 URL")` when the network location contains `[`
without `]` or `]` without `[`.  (Newer CPython additionally validates the
contents of a balanced bracketed host; those inputs take the same `except`
arms in the source — this model covers the version-stable check.) -/
def urlparse_raises (raw : PyStr) : Bool :=
  let netloc := urlparse_netloc raw
  (netloc.contains '[' && !(netloc.contains ']')) ||
  (netloc.contains ']' && !(netloc.contains '['))

/-- The hostname extraction of `urllib.parse.urlparse(raw).hostname` for a
`raw` with an explicit scheme on which urlparse does not raise: user info
(through the last `@`) is dropped; if a `[` is present the host is what
follows the first `[` up to the first `]`, otherwise everything before the
first `:` (the port); the result is lower-cased.  A location with no host
yields the empty string (urlparse returns `None`, whose falsiness the
callers test). -/
def urlparse_hostname (raw : PyStr) : PyStr :=
  let netloc := urlparse_netloc raw
  let hostinfo := (netloc.reverse.takeWhile (fun c => !(c == '@'))).reverse
  let host :=
    if hostinfo.contains '[' then
      ((hostinfo.dropWhile (fun c => !(c == '['))).drop 1).takeWhile
        (fun c => !(c == ']'))
    else hostinfo.takeWhile (fun c => !(c == ':'))
  pyLower host

/-- api.py normalization (scan_domain lines 46–73): strip the input; for an
explicit-scheme URL take urlparse's hostname (falling back to the raw input
when it is empty) and strip surrounding slashes — unless urlparse raises,
in which case the `except` arm (api.py lines 55–56) deletes every
`"https://"` and `"http://"` substring from the input instead.  Preserve an
explicit scheme via `parsed.scheme` — unless urlparse raises, in which case
the `except: pass` (api.py lines 68–69) keeps the `https` default; for a
bare input default to `https` with `http` for the loopback names
`localhost`, `127.0.0.1`, `::1`.  `base_url` is scheme ++ "://" ++ host. -/
def normalize_api (domain : PyStr) : Target :=
  let raw := pyStripWs domain
  let explicit :=
    pyStartsWith (py "http://") raw || pyStartsWith (py "https://") raw
  let host :=
    if explicit then
      if urlparse_raises raw then
        pyStripChar '/' (pyRemoveAll (py "http://") (pyRemoveAll (py "https://") raw))
      else
        let h := urlparse_hostname raw
        pyStripChar '/' (if h = [] then raw else h)
    else pyStripChar '/' raw
  let scheme :=
    if explicit then
      if urlparse_raises raw then py "https"
      else if pyStartsWith (py "https://") raw then py "https" else py "http"
    else
      if host = py "localhost" ∨ host = py "127.0.0.1" ∨ host = py "::1" then
        py "http"
      else py "https"
  { host := host, scheme := scheme, base_url := scheme ++ py "://" ++ host }

/-- cli.py normalization (domain command lines 119–143): identical host
extraction including the `except` arm (cli.py lines 128–129), and the same
`except: pass` on the scheme (cli.py lines 141–142), but the scheme default
has no loopback arm — a bare name always gets `https`. -/
def normalize_cli (domain : PyStr) : Target :=
  let raw := pyStripWs domain
  let explicit :=
    pyStartsWith (py "http://") raw || pyStartsWith (py "https://") raw
  let host :=
    if explicit then
      if urlparse_raises raw then
        pyStripChar '/' (pyRemoveAll (py "http://") (pyRemoveAll (py "https://") raw))
      else
        let h := urlparse_hostname raw
        pyStripChar '/' (if h = [] then raw else h)
    else pyStripChar '/' raw
  let scheme :=
    if explicit then
      if urlparse_raises raw then py "https"
      else if pyStartsWith (py "https://") raw then py "https" else py "http"
    else py "https"
  { host := host, scheme := scheme, base_url := scheme ++ py "://" ++ host }

/-! Port-profile resolution — api.py lines 74–84 and cli.py `_resolve_ports`
(lines 61–77). -/

/-- api.py lines 74–84: the service-side port-profile resolution.  There is
no rejection path: an unknown profile, and a `custom` profile whose
`custom_ports` is `None` or `[]` (falsy), silently keep `TOP_30_PORTS`. -/
def resolve_ports_api (port_profile : String) (custom_ports : Option (List Nat)) :
    List Nat :=
  if port_profile = "top100" then sortedDedup (TOP_30_PORTS ++ TOP100_EXTRA)
  else if port_profile = "custom" then
    match custom_ports with
    | some (p :: rest) => sortedDedup (p :: rest)
    | _ => TOP_30_PORTS
  else TOP_30_PORTS

/-- cli.py `_resolve_ports`: `top30` and `top100` return their lists; for
`custom` a falsy CSV string (`None` or empty) raises `BadParameter`,
otherwise the CSV is split on commas, entries stripped, empty entries
dropped, and each remaining entry parsed with `int` (a non-numeric entry
raises `ValueError`); any other profile raises `BadParameter`. -/
def resolve_ports_cli (profile : String) (custom : Option PyStr) :
    Except PyErr (List Nat) :=
  if profile = "top30" then Except.ok TOP_30_PORTS
  else if profile = "top100" then
    Except.ok (sortedDedup (TOP_30_PORTS ++ TOP100_EXTRA))
  else if profile = "custom" then
    match custom with
    | none =>
      Except.error (PyErr.badParameter
        (py "--custom-ports must be provided when --ports=custom"))
    | some s =>
      if s = [] then
        Except.error (PyErr.badParameter
          (py "--custom-ports must be provided when --ports=custom"))
      else
        match ((splitOnChar ',' s).map pyStripWs).filter
            (fun x => !(x.isEmpty)) |>.mapM pyInt? with
        | some l => Except.ok l
        | none =>
          Except.error (PyErr.valueError
            (py "invalid literal for int() with base 10"))
  else
    Except.error (PyErr.badParameter
      (py "--ports must be one of: top30, top100, custom"))

/-! Scan orchestrator (api.py `scan_domain`, cli.py `domain`). -/

/-- The network environment of one scan against a fixed target: the outcome
each probe would observe.  Probes whose source absorbs every exception at
its own boundary (subdomains, ports, headers, cors, tls, dns, axfr,
security_txt, mixed_content, dns_extras, takeover) contribute plain values
or outcome functions; `fetch_preview`, `analyze_cookies` and
`fingerprint_web` have no handler around their HTTP request, so their
awaited outcome is an `Except` that may carry the raised error.
`duration` is the wall-clock time the scan takes. -/
structure ProbeEnv where
  ct_response : Option (Nat × List PyStr)
  dns_resolves : PyStr → Bool
  net : Nat → Bool
  fetch_body : PyStr → Option PyStr
  headers_res : SecurityHeadersAssessment
  preview_res : Except PyErr WebPreview
  cors_res : CORSAssessment
  cookies_res : Except PyErr CookieAssessment
  fingerprint_res : Except PyErr WebFingerprint
  tls_res : TLSInfo
  dns_res : DNSAssessment
  axfr_res : DNSAxfrCheck
  security_txt_res : SecurityTxt
  mixed_res : MixedContentReport
  dns_extras_res : DNSExtras
  duration : Nat

/-- The observable outcome of one scan invocation, with a ghost flag
recording whether `check_takeover_candidates` was invoked (instrumentation
for the dependency claim; not a field of the Python report). -/
structure ScanOutcome where
  report : DomainScanResult
  takeover_invoked : Bool
deriving DecidableEq

/-- Awaiting `task if enabled else None`: a disabled probe contributes
`none`; awaiting an enabled probe whose coroutine raised re-raises at the
`await` (api.py / cli.py have no handler there). -/
def await_opt (enabled : Bool) (t : Except PyErr α) : Except PyErr (Option α) :=
  if enabled then t.map some else Except.ok none

/-- api.py `scan_domain` (lines 44–142).  The awaits happen in source
order: subdomains, ports, headers, preview, cors, cookies, fingerprint,
security_txt, mixed, tls, dns, axfr, dns_extras, then the guarded takeover
check.  `native_available` is accepted (the try-import outcome) but unused:
api.py never consults the native shim — port scanning always goes through
the default `scan_ports`.  The takeover call is wrapped in try/except in
the source; the embedded check is total, so the except arm is unreachable.
The axfr probe has no toggle and always runs. -/
def scan_domain (env : ProbeEnv) (native_available : Bool)
    (req : DomainScanRequest) (started_at : Nat) : Except PyErr ScanOutcome :=
  let tgt := normalize_api req.domain
  let ports_list := resolve_ports_api req.port_profile req.custom_ports
  let subdomains_res :=
    if req.scan_subdomains then
      some (enumerate_subdomains env.ct_response env.dns_resolves tgt.host)
    else none
  let ports_res :=
    if req.scan_ports then some (scan_ports env.net tgt.host ports_list) else none
  let headers_res := if req.analyze_headers then some env.headers_res else none
  match await_opt req.web_preview env.preview_res with
  | Except.error e => Except.error e
  | Except.ok preview_res =>
    let cors_res := if req.analyze_cors then some env.cors_res else none
    match await_opt req.analyze_cookies env.cookies_res with
    | Except.error e => Except.error e
    | Except.ok cookies_res =>
      match await_opt req.fingerprint_web env.fingerprint_res with
      | Except.error e => Except.error e
      | Except.ok fp_res =>
        let sec_txt_res :=
          if req.check_security_txt then some env.security_txt_res else none
        let mixed_res :=
          if req.check_mixed_content then some env.mixed_res else none
        let tls_info := if req.analyze_tls then some env.tls_res else none
        let dns_info := if req.analyze_dns then some env.dns_res else none
        let dns_extra_res :=
          if req.check_dnssec_caa then some env.dns_extras_res else none
        let takeover :=
          match subdomains_res with
          | some s =>
            if s.discovered = [] then ((none : Option TakeoverAssessment), false)
            else (some (check_takeover_candidates env.fetch_body s.discovered), true)
          | none => ((none : Option TakeoverAssessment), false)
        Except.ok
          { report :=
              { domain := tgt.host
                started_at := started_at
                finished_at := started_at + env.duration
                subdomains := subdomains_res
                ports := ports_res
                tls := tls_info
                headers := headers_res
                dns := dns_info
                preview := preview_res
                takeover := takeover.1
                cors := cors_res
                cookies := cookies_res
                web_fingerprint := fp_res
                dns_axfr := some env.axfr_res
                security_txt := sec_txt_res
                mixed_content := mixed_res
                dns_extras := dns_extra_res }
            takeover_invoked := takeover.2 }

/-- The cli.py `domain` command's per-check flags (all default on). -/
structure CliFlags where
  do_scan_subdomains : Bool := true
  do_scan_ports : Bool := true
  analyze_headers : Bool := true
  analyze_tls : Bool := true
  analyze_dns : Bool := true
  web_preview : Bool := true
  analyze_cors_opt : Bool := true
  analyze_cookies_opt : Bool := true
  fingerprint_web_opt : Bool := true
  check_security_txt_opt : Bool := true
  check_mixed_content_opt : Bool := true
  check_dnssec_caa_opt : Bool := true
deriving DecidableEq

/-- cli.py `domain` command: the `_run` coroutine (lines 117–193).
Differences from the service surface: normalization has no loopback arm,
`_resolve_ports` may reject before any probe runs, and the guarded takeover
check is awaited right after preview (before cors/cookies/fingerprint).
The snapshot's cli passes `dns_timeout`/`http_timeout` keywords to
`enumerate_subdomains` that the subdomains.py snapshot's signature does not
list; the timeouts only shape the environment's resolution outcomes here.
`tls`/`dns` are computed inline while building the result. -/
def cli_domain_run (env : ProbeEnv) (domain : PyStr) (ports_profile : String)
    (custom_ports : Option PyStr) (fl : CliFlags) (started_at : Nat) :
    Except PyErr ScanOutcome :=
  let tgt := normalize_cli domain
  match resolve_ports_cli ports_profile custom_ports with
  | Except.error e => Except.error e
  | Except.ok ports_list =>
    let subdomains :=
      if fl.do_scan_subdomains then
        some (enumerate_subdomains env.ct_response env.dns_resolves tgt.host)
      else none
    let ports_res :=
      if fl.do_scan_ports then some (scan_ports env.net tgt.host ports_list)
      else none
    let headers := if fl.analyze_headers then some env.headers_res else none
    match await_opt fl.web_preview env.preview_res with
    | Except.error e => Except.error e
    | Except.ok preview =>
      let takeover :=
        match subdomains with
        | some s =>
          if s.discovered = [] then ((none : Option TakeoverAssessment), false)
          else (some (check_takeover_candidates env.fetch_body s.discovered), true)
        | none => ((none : Option TakeoverAssessment), false)
      let cors_res := if fl.analyze_cors_opt then some env.cors_res else none
      match await_opt fl.analyze_cookies_opt env.cookies_res with
      | Except.error e => Except.error e
      | Except.ok cookies_res =>
        match await_opt fl.fingerprint_web_opt env.fingerprint_res with
        | Except.error e => Except.error e
        | Except.ok fp =>
          let sec_txt :=
            if fl.check_security_txt_opt then some env.security_txt_res else none
          let mixed :=
            if fl.check_mixed_content_opt then some env.mixed_res else none
          let dns_extra :=
            if fl.check_dnssec_caa_opt then some env.dns_extras_res else none
          Except.ok
            { report :=
                { domain := tgt.host
                  started_at := started_at
                  finished_at := started_at + env.duration
                  subdomains := subdomains
                  ports := ports_res
                  tls := if fl.analyze_tls then some env.tls_res else none
                  headers := headers
                  dns := if fl.analyze_dns then some env.dns_res else none
                  preview := preview
                  takeover := takeover.1
                  cors := cors_res
                  cookies := cookies_res
                  web_fingerprint := fp
                  dns_axfr := some env.axfr_res
                  security_txt := sec_txt
                  mixed_content := mixed
                  dns_extras := dns_extra }
              takeover_invoked := takeover.2 }

/-- Environment of a scan against an unreachable target: the CT query, DNS
resolutions and connect attempts fail closed inside their probes; the three
HTTP probes without handlers raise a connection error. -/
def env_unreachable : ProbeEnv :=
  { ct_response := none
    dns_resolves := fun _ => false
    net := fun _ => false
    fetch_body := fun _ => none
    headers_res :=
      { url := py "https://unreachable.invalid", findings := []
        grade := py "N/A", score := 0 }
    preview_res :=
      Except.error (PyErr.connectError (py "All connection attempts failed"))
    cors_res := { url := py "https://unreachable.invalid" }
    cookies_res :=
      Except.error (PyErr.connectError (py "All connection attempts failed"))
    fingerprint_res :=
      Except.error (PyErr.connectError (py "All connection attempts failed"))
    tls_res :=
      { domain := py "unreachable.invalid", warnings := [py "TLS check failed"] }
    dns_res := { domain := py "unreachable.invalid" }
    axfr_res := { domain := py "unreachable.invalid" }
    security_txt_res :=
      { url := py "https://unreachable.invalid/.well-known/security.txt"
        found := false }
    mixed_res :=
      { url := py "https://unreachable.invalid", insecure_reference_count := 0 }
    dns_extras_res :=
      { domain := py "unreachable.invalid", dnssec_present := false }
    duration := 3 }

/-- Environment of a scan in which every probe settles without raising; the
CT source knows one real subdomain. -/
def env_ok : ProbeEnv :=
  { ct_response := some (200, [py "www.example.com"])
    dns_resolves := fun _ => false
    net := fun _ => false
    fetch_body := fun _ => none
    headers_res :=
      { url := py "https://example.com", findings := [], grade := py "F"
        score := 0 }
    preview_res := Except.ok { url := py "https://example.com" }
    cors_res := { url := py "https://example.com" }
    cookies_res := Except.ok { url := py "https://example.com", cookies := [] }
    fingerprint_res := Except.ok { url := py "https://example.com" }
    tls_res := { domain := py "example.com" }
    dns_res := { domain := py "example.com" }
    axfr_res := { domain := py "example.com" }
    security_txt_res :=
      { url := py "https://example.com/.well-known/security.txt", found := false }
    mixed_res := { url := py "https://example.com", insecure_reference_count := 0 }
    dns_extras_res := { domain := py "example.com", dnssec_present := false }
    duration := 1 }

/-- A request with the subdomain probe disabled and every default otherwise. -/
def req_no_subs : DomainScanRequest :=
  { domain := py "example.com", scan_subdomains := false }

/-- A service request selecting the custom profile with an empty port list,
every probe but the port scan disabled. -/
def req_custom_empty : DomainScanRequest :=
  { domain := py "example.com"
    scan_subdomains := false
    analyze_headers := false
    analyze_tls := false
    analyze_dns := false
    web_preview := false
    analyze_cors := false
    analyze_cookies := false
    fingerprint_web := false
    check_security_txt := false
    check_mixed_content := false
    check_dnssec_caa := false
    port_profile := "custom"
    custom_ports := some [] }

/-! Basic lemmas about the string model. -/

theorem head?_dropWhile_ne (p : Char → Bool) :
    ∀ (l : PyStr) (a : Char), (l.dropWhile p).head? = some a → p a = false := by
  intro l
  induction l with
  | nil => intro a h; simp [List.dropWhile] at h
  | cons b t ih =>
    intro a h
    by_cases hb : p b
    · rw [List.dropWhile_cons_of_pos hb] at h
      exact ih a h
    · rw [List.dropWhile_cons_of_neg hb] at h
      simp at h
      rw [← h]
      exact Bool.of_not_eq_true hb

theorem getLast?_dropTrailingWhile_ne (p : Char → Bool) (l : PyStr) (a : Char)
    (h : (dropTrailingWhile p l).getLast? = some a) : p a = false := by
  have := List.getLast?_reverse (l.reverse.dropWhile p)
  rw [dropTrailingWhile] at h
  rw [h] at this
  exact head?_dropWhile_ne p l.reverse a this.symm

theorem head?_dropTrailingWhile (p : Char → Bool) (l : PyStr) :
    (dropTrailingWhile p l).head? = l.head? ∨ dropTrailingWhile p l = [] := by
  have hsuf : l.reverse.dropWhile p <:+ l.reverse := List.dropWhile_suffix p
  obtain ⟨u, hu⟩ := hsuf
  have hpre : (dropTrailingWhile p l) <+: l := by
    refine ⟨u.reverse, ?_⟩
    rw [dropTrailingWhile, ← List.reverse_append, hu, List.reverse_reverse]
  obtain ⟨t, ht⟩ := hpre
  cases hd : dropTrailingWhile p l with
  | nil => exact Or.inr rfl
  | cons x xs =>
    left
    rw [← ht, hd]
    simp

theorem head?_pyStripChar (c : Char) (l : PyStr) (a : Char)
    (h : (pyStripChar c l).head? = some a) : a ≠ c := by
  rw [pyStripChar] at h
  rcases head?_dropTrailingWhile (· = c) (l.dropWhile (· = c)) with heq | hnil
  · rw [heq] at h
    have := head?_dropWhile_ne (· = c) l a h
    simpa using this
  · rw [hnil] at h
    simp at h

theorem getLast?_pyStripChar (c : Char) (l : PyStr) (a : Char)
    (h : (pyStripChar c l).getLast? = some a) : a ≠ c := by
  have := getLast?_dropTrailingWhile_ne (· = c) (l.dropWhile (· = c)) a h
  simpa using this

theorem mem_sortedDedup (l : List Nat) (a : Nat) :
    a ∈ sortedDedup l ↔ a ∈ l := by
  rw [sortedDedup]
  rw [(List.perm_insertionSort _ _).mem_iff]
  exact List.mem_dedup

theorem nodup_sortedDedup (l : List Nat) : (sortedDedup l).Nodup := by
  rw [sortedDedup]
  exact (List.perm_insertionSort _ _).symm.nodup (List.nodup_dedup l)

theorem sorted_le_sortedDedup (l : List Nat) :
    (sortedDedup l).Sorted (· ≤ ·) := by
  rw [sortedDedup]
  exact List.sorted_insertionSort _ _

theorem sorted_lt_sortedDedup (l : List Nat) :
    (sortedDedup l).Sorted (· < ·) := by
  have hle := sorted_le_sortedDedup l
  have hne : (sortedDedup l).Pairwise (· ≠ ·) := nodup_sortedDedup l
  exact (hle.and hne).imp (fun h => lt_of_le_of_ne h.1 h.2)

/-! Scheduler lemmas: a completed bounded run contains every task exactly
once, and reassembling by index recovers the task list. -/

theorem schedStep_perm {L : Nat} {s t : SchedState α} (h : SchedStep L s t) :
    (s.pending ++ s.running ++ s.done).Perm (t.pending ++ t.running ++ t.done) := by
  cases h with
  | start i a pend run don _ =>
    simp only [List.append_assoc, List.cons_append]
    exact List.perm_middle.symm
  | finish x run₁ run₂ pend don =>
    simp only [List.append_assoc, List.cons_append]
    exact List.Perm.append_left pend (List.Perm.append_left run₁ List.perm_middle.symm)

theorem schedExec_perm {L : Nat} {s t : SchedState α} (h : SchedExec L s t) :
    (s.pending ++ s.running ++ s.done).Perm (t.pending ++ t.running ++ t.done) := by
  induction h with
  | refl => exact List.Perm.refl _
  | step t u hexec hstep ih => exact ih.trans (schedStep_perm hstep)

theorem schedExec_done_perm {L : Nat} {tasks : List α} {done : List (Nat × α)}
    (h : SchedExec L (initState tasks) ⟨[], [], done⟩) : done.Perm tasks.enum := by
  have := schedExec_perm h
  simp [initState] at this
  exact this.symm

theorem enum_pairwise_idxLt (tasks : List α) : tasks.enum.Pairwise idxLt := by
  have hr := List.pairwise_lt_range tasks.length
  rw [← List.enum_map_fst tasks, List.pairwise_map] at hr
  exact hr.imp (fun h => h)

theorem gather_results_of_perm_enum {tasks : List α} {done : List (Nat × α)}
    (h : done.Perm tasks.enum) : gather_results done = tasks := by
  have hsortle : (done.insertionSort idxLe).Pairwise idxLe :=
    List.sorted_insertionSort idxLe done
  have hperm : (done.insertionSort idxLe).Perm tasks.enum :=
    (List.perm_insertionSort idxLe done).trans h
  have hfst : ((done.insertionSort idxLe).map Prod.fst).Perm (List.range tasks.length) := by
    have := hperm.map Prod.fst
    rwa [List.enum_map_fst tasks] at this
  have hnodupfst : ((done.insertionSort idxLe).map Prod.fst).Nodup :=
    hfst.symm.nodup (List.nodup_range _)
  have hnefst : (done.insertionSort idxLe).Pairwise (fun p q => p.1 ≠ q.1) := by
    have h2 : ((done.insertionSort idxLe).map Prod.fst).Pairwise (· ≠ ·) := hnodupfst
    rw [List.pairwise_map] at h2
    exact h2
  have hsortlt : (done.insertionSort idxLe).Pairwise idxLt :=
    (hsortle.and hnefst).imp (fun hpq => lt_of_le_of_ne hpq.1 hpq.2)
  have heq : done.insertionSort idxLe = tasks.enum :=
    List.eq_of_perm_of_sorted (r := idxLt) hperm hsortlt (enum_pairwise_idxLt tasks)
  rw [gather_results, heq, List.enum_map_snd]

theorem map_port_filter_open (net : Nat → Bool) (pl : List Nat) :
    ((pl.map (fun p => PortResult.mk p (net p))).filter (fun r => r.is_open)).map
        (fun r => r.port) =
      pl.filter (fun p => net p) := by
  induction pl with
  | nil => simp
  | cons p t ih =>
    simp only [List.map_cons, List.filter_cons]
    cases hn : net p <;> simp [hn, ih]

/-- C4.  For every host and every finite collection of port numbers (any
order, duplicates allowed), the `scan_ports` report satisfies:
`ports_scanned` is the sorted de-duplication of the input (no duplicates,
strictly ascending, same members); `open_ports` is exactly the ports of the
outcomes with `is_open = true`, in ascending order; and `open_ports` is a
subset of `ports_scanned`. -/
theorem scan_ports_report_invariants (net : Nat → Bool) (host : PyStr)
    (ports : List Nat) :
    (scan_ports net host ports).ports_scanned.Nodup ∧
    (scan_ports net host ports).ports_scanned.Sorted (· < ·) ∧
    (∀ p, p ∈ (scan_ports net host ports).ports_scanned ↔ p ∈ ports) ∧
    (scan_ports net host ports).open_ports =
      ((scan_ports net host ports).results.filter (fun r => r.is_open)).map
        (fun r => r.port) ∧
    (scan_ports net host ports).open_ports.Sorted (· < ·) ∧
    (scan_ports net host ports).open_ports ⊆ (scan_ports net host ports).ports_scanned := by
  have hopen : (scan_ports net host ports).open_ports =
      (sortedDedup ports).filter (fun p => net p) := by
    simp only [scan_ports]
    exact map_port_filter_open net (sortedDedup ports)
  have hscanned : (scan_ports net host ports).ports_scanned = sortedDedup ports := rfl
  refine ⟨nodup_sortedDedup ports, sorted_lt_sortedDedup ports,
    fun p => mem_sortedDedup ports p, rfl, ?_, ?_⟩
  · rw [hopen]
    exact (sorted_lt_sortedDedup ports).filter _
  · rw [hopen, hscanned]
    exact (List.filter_sublist _).subset

/-- C7.  For every host, port set and fixed per-port connect outcome (a
stable network `net : port → Bool`), any complete run of the port scan under
the bounded scheduler with concurrency limit `L = 1` and any complete run
with `L = 200` assemble the same report — the pure `scan_ports` report — and
in particular the same open-port set.  (The proof never uses the limit, so
the same argument covers every `L`.) -/
theorem scan_ports_concurrency_independent (net : Nat → Bool) (host : PyStr)
    (ports : List Nat) (d₁ d₂ : List (Nat × PortResult))
    (h₁ : SchedExec 1 (initState (port_tasks net (sortedDedup ports))) ⟨[], [], d₁⟩)
    (h₂ : SchedExec 200 (initState (port_tasks net (sortedDedup ports))) ⟨[], [], d₂⟩) :
    report_of_done host ports d₁ = report_of_done host ports d₂ ∧
    report_of_done host ports d₁ = scan_ports net host ports := by
  have g₁ : gather_results d₁ = port_tasks net (sortedDedup ports) :=
    gather_results_of_perm_enum (schedExec_done_perm h₁)
  have g₂ : gather_results d₂ = port_tasks net (sortedDedup ports) :=
    gather_results_of_perm_enum (schedExec_done_perm h₂)
  constructor
  · simp only [report_of_done, g₁, g₂]
  · simp only [report_of_done, g₁, scan_ports, port_tasks]

/-- Witness for C7: a concrete one-port scan, run once under limit 1 and
once under limit 200, with both hypotheses discharged by explicit scheduler
traces. -/
theorem scan_ports_concurrency_independent_witness :
    report_of_done (py "localhost") [80] [(0, PortResult.mk 80 true)] =
      scan_ports (fun _ => true) (py "localhost") [80] := by
  have hstart1 : SchedStep 1
      (initState (port_tasks (fun _ => true) (sortedDedup [80])))
      ⟨[], [(0, PortResult.mk 80 true)], []⟩ :=
    SchedStep.start 0 (PortResult.mk 80 true) [] [] [] (by decide)
  have hfin1 : SchedStep 1 ⟨[], [(0, PortResult.mk 80 true)], []⟩
      ⟨[], [], [(0, PortResult.mk 80 true)]⟩ :=
    SchedStep.finish (0, PortResult.mk 80 true) [] [] [] []
  have hexec1 : SchedExec 1
      (initState (port_tasks (fun _ => true) (sortedDedup [80])))
      ⟨[], [], [(0, PortResult.mk 80 true)]⟩ :=
    SchedExec.step _ _ _ (SchedExec.step _ _ _ (SchedExec.refl _) hstart1) hfin1
  have hstart2 : SchedStep 200
      (initState (port_tasks (fun _ => true) (sortedDedup [80])))
      ⟨[], [(0, PortResult.mk 80 true)], []⟩ :=
    SchedStep.start 0 (PortResult.mk 80 true) [] [] [] (by decide)
  have hfin2 : SchedStep 200 ⟨[], [(0, PortResult.mk 80 true)], []⟩
      ⟨[], [], [(0, PortResult.mk 80 true)]⟩ :=
    SchedStep.finish (0, PortResult.mk 80 true) [] [] [] []
  have hexec2 : SchedExec 200
      (initState (port_tasks (fun _ => true) (sortedDedup [80])))
      ⟨[], [], [(0, PortResult.mk 80 true)]⟩ :=
    SchedExec.step _ _ _ (SchedExec.step _ _ _ (SchedExec.refl _) hstart2) hfin2
  exact (scan_ports_concurrency_independent (fun _ => true) (py "localhost")
    [80] _ _ hexec1 hexec2).2

/-- C2 fails on the code: the CT-source filter `n.endswith(domain.lower())`
is a plain character-suffix match, so enumerating `example.com` with a CT
reply containing `evilexample.com` reports `evilexample.com` as discovered,
although it is not equal to the root, not a dot-separated subdomain of it,
and no DNS-wordlist candidate resolved. -/
theorem crtsh_reports_non_subdomain :
    (enumerate_subdomains (some (200, [py "evilexample.com"])) (fun _ => false)
        (py "example.com")).discovered = [py "evilexample.com"] ∧
    py "evilexample.com" ≠ py "example.com" ∧
    pyEndsWith ('.' :: py "example.com") (py "evilexample.com") = false := by
  refine ⟨by decide, by decide, by decide⟩

/-- C3 fails on the code: `sources["dns-wordlist"]` counts the wordlist
candidates contained in the merged discovered set, so a CT reply containing
`www.example.com` makes the dns-wordlist count 1 even though not a single
candidate resolved (the claim requires 0 there). -/
theorem dns_wordlist_count_contaminated_by_ct :
    (enumerate_subdomains (some (200, [py "www.example.com"])) (fun _ => false)
        (py "example.com")).sources = [("crt.sh", 1), ("dns-wordlist", 1)] ∧
    ((WORDLIST.map (fun w => w ++ ('.' :: py "example.com"))).filter
        (fun c => (fun _ => false : PyStr → Bool) c)).length = 0 := by
  refine ⟨by decide, by decide⟩

/-! Takeover-checker lemmas and C10. -/

theorem flag_one_eq_some {fetch : PyStr → Option PyStr} {x : PyStr}
    {f : TakeoverFinding} (h : flag_one fetch x = some f) :
    f.subdomain = x ∧ fetch x ≠ none := by
  cases hf : fetch x with
  | none => simp [flag_one, hf] at h
  | some text =>
    cases hs : SIGNATURES.find? (fun sv => pyContains sv.1 (text.take 8000)) with
    | none => simp [flag_one, hf, hs] at h
    | some sv =>
      simp [flag_one, hf, hs] at h
      exact ⟨by rw [← h], by simp [hf]⟩

theorem takeover_loop_eq_filterMap (fetch : PyStr → Option PyStr) (l : List PyStr) :
    takeover_scan_loop fetch l = l.filterMap (flag_one fetch) := by
  induction l with
  | nil => rfl
  | cons sub rest ih =>
    rw [takeover_scan_loop, List.filterMap_cons]
    cases hf : fetch sub with
    | none => simp [flag_one, hf, ih]
    | some text =>
      cases hs : SIGNATURES.find? (fun sv => pyContains sv.1 (text.take 8000)) with
      | none => simp [flag_one, hf, hs, ih]
      | some sv => simp [flag_one, hf, hs, ih]

theorem takeover_loop_filter_ne (s : PyStr) (fetch fetch₂ : PyStr → Option PyStr)
    (hagree : ∀ x, x ≠ s → fetch₂ x = fetch x) (l : List PyStr) :
    (takeover_scan_loop fetch l).filter (fun f => decide (f.subdomain ≠ s)) =
      (takeover_scan_loop fetch₂ l).filter (fun f => decide (f.subdomain ≠ s)) := by
  rw [takeover_loop_eq_filterMap, takeover_loop_eq_filterMap]
  induction l with
  | nil => rfl
  | cons x rest ih =>
    rw [List.filterMap_cons, List.filterMap_cons]
    by_cases hx : x = s
    · cases h1 : flag_one fetch x with
      | none =>
        cases h2 : flag_one fetch₂ x with
        | none => exact ih
        | some f2 =>
          have hs2 := (flag_one_eq_some h2).1
          simp [List.filter_cons, hs2, hx]
          simpa using ih
      | some f1 =>
        have hs1 := (flag_one_eq_some h1).1
        cases h2 : flag_one fetch₂ x with
        | none =>
          simp [List.filter_cons, hs1, hx]
          simpa using ih
        | some f2 =>
          have hs2 := (flag_one_eq_some h2).1
          simp [List.filter_cons, hs1, hs2, hx]
          simpa using ih
    · have heq2 : flag_one fetch₂ x = flag_one fetch x := by
        unfold flag_one
        rw [hagree x hx]
      rw [heq2]
      cases h1 : flag_one fetch x with
      | none => exact ih
      | some f1 =>
        by_cases hp : f1.subdomain = s
        · simp [List.filter_cons, hp]
          simpa using ih
        · simp [List.filter_cons, hp]
          simpa using ih

/-- C10.  For every discovered-subdomain list the takeover check examines at
most the first 200 names (`flagged` is a per-name `filterMap` over
`subdomains[:200]`), reports `checked_count = min(len, 200)`, and a
per-subdomain fetch failure skips exactly that name: nothing is flagged for
it, and the findings for every other name are unchanged whatever the failing
name's fetch would have returned. -/
theorem takeover_caps_at_200_and_skips_failures (subs : List PyStr)
    (fetch : PyStr → Option PyStr) :
    (check_takeover_candidates fetch subs).checked_count = min subs.length 200 ∧
    (check_takeover_candidates fetch subs).flagged =
      (subs.take 200).filterMap (flag_one fetch) ∧
    (∀ s, fetch s = none →
      ∀ f ∈ (check_takeover_candidates fetch subs).flagged, f.subdomain ≠ s) ∧
    (∀ s fetch₂, (∀ x, x ≠ s → fetch₂ x = fetch x) →
      (check_takeover_candidates fetch subs).flagged.filter
          (fun f => decide (f.subdomain ≠ s)) =
        (check_takeover_candidates fetch₂ subs).flagged.filter
          (fun f => decide (f.subdomain ≠ s))) := by
  refine ⟨rfl, takeover_loop_eq_filterMap fetch (subs.take 200), ?_, ?_⟩
  · intro s hs f hf
    rw [check_takeover_candidates] at hf
    simp only at hf
    rw [takeover_loop_eq_filterMap] at hf
    obtain ⟨x, _, hx⟩ := List.mem_filterMap.mp hf
    obtain ⟨hsub, hne⟩ := flag_one_eq_some hx
    intro hcontra
    exact hne (by rw [← hsub, hcontra, hs])
  · intro s fetch₂ hagree
    exact takeover_loop_filter_ne s fetch fetch₂ hagree (subs.take 200)

/-- Witness for C10 at a concrete two-name list where the first fetch fails
and the second returns a signature body; every hypothesis of the theorem is
discharged at this input. -/
theorem takeover_caps_witness :
    (check_takeover_candidates
        (fun x => if x = py "a.example.com" then none else some (py "NoSuchBucket"))
        [py "a.example.com", py "b.example.com"]).checked_count = min 2 200 ∧
    (∀ f ∈ (check_takeover_candidates
        (fun x => if x = py "a.example.com" then none else some (py "NoSuchBucket"))
        [py "a.example.com", py "b.example.com"]).flagged,
      f.subdomain ≠ py "a.example.com") := by
  have h := takeover_caps_at_200_and_skips_failures
    [py "a.example.com", py "b.example.com"]
    (fun x => if x = py "a.example.com" then none else some (py "NoSuchBucket"))
  exact ⟨h.1, h.2.2.1 (py "a.example.com") (by decide)⟩

/-! C5: normalization rules at the two entry points. -/

theorem not_startsWith_https_of_http {r : PyStr}
    (h : pyStartsWith (py "http://") r = true) :
    pyStartsWith (py "https://") r = false := by
  rw [pyStartsWith, List.isPrefixOf_iff_prefix] at h
  obtain ⟨t, ht⟩ := h
  rw [← ht]
  rfl

theorem normalize_api_host_stripped (domain : PyStr) :
    ∃ x, (normalize_api domain).host = pyStripChar '/' x := by
  by_cases hex : (pyStartsWith (py "http://") (pyStripWs domain) ||
      pyStartsWith (py "https://") (pyStripWs domain)) = true
  · by_cases hru : urlparse_raises (pyStripWs domain) = true
    · exact ⟨pyRemoveAll (py "http://") (pyRemoveAll (py "https://") (pyStripWs domain)),
        by simp [normalize_api, hex, hru]⟩
    · have hru2 := Bool.of_not_eq_true hru
      exact ⟨(if urlparse_hostname (pyStripWs domain) = [] then pyStripWs domain
          else urlparse_hostname (pyStripWs domain)),
        by simp [normalize_api, hex, hru2]⟩
  · have hex2 := Bool.of_not_eq_true hex
    exact ⟨pyStripWs domain, by simp [normalize_api, hex2]⟩

/-- C5 fails on the code: the CLI normalization has no loopback arm, so the
bare name `localhost` is given scheme `https` by the CLI but `http` by the
service; an input that smuggles a scheme past the explicit-scheme prefix
test keeps that scheme prefix inside `host`; and an explicit `http://` URL
on which urlparse raises (unbalanced bracket) is not preserved — the
`except` arms leave scheme `https` and host `"["`. -/
theorem cli_normalization_lacks_loopback_rule :
    (normalize_cli (py "localhost")).scheme = py "https" ∧
    (normalize_api (py "localhost")).scheme = py "http" ∧
    py "https" ≠ py "http" ∧
    pyStartsWith (py "http://")
      ((normalize_api (py "/http://example.com")).host) = true ∧
    (normalize_api (py "http://[")).scheme = py "https" ∧
    (normalize_cli (py "http://[")).scheme = py "https" ∧
    (normalize_api (py "http://[")).host = py "[" := by
  refine ⟨by decide, by decide, by decide, by decide, by decide, by decide,
    by decide⟩

/-- C5 amended.  At both entry points an explicit `https://` scheme yields
scheme `https`, and an explicit `http://` scheme is preserved exactly when
urlparse accepts the URL — when it raises (unbalanced bracket in the
network location) both surfaces keep the `https` default and the host falls
back to the input with every scheme substring deleted.  For bare inputs the
default is `https`, with the `http`-for-loopback exception only at the
service surface — the CLI gives every bare name `https`.  Both surfaces
compute the same `host`; the host never begins or ends with a slash
(though a bare input that smuggles a scheme past the prefix check may keep
a scheme substring inside `host`); `baseURL` is scheme ++ "://" ++ host. -/
theorem normalization_rules (domain : PyStr) :
    (pyStartsWith (py "https://") (pyStripWs domain) = true →
      (normalize_api domain).scheme = py "https" ∧
      (normalize_cli domain).scheme = py "https") ∧
    (pyStartsWith (py "http://") (pyStripWs domain) = true →
      urlparse_raises (pyStripWs domain) = false →
      (normalize_api domain).scheme = py "http" ∧
      (normalize_cli domain).scheme = py "http") ∧
    (pyStartsWith (py "http://") (pyStripWs domain) = true →
      urlparse_raises (pyStripWs domain) = true →
      (normalize_api domain).scheme = py "https" ∧
      (normalize_cli domain).scheme = py "https" ∧
      (normalize_api domain).host = pyStripChar '/'
        (pyRemoveAll (py "http://")
          (pyRemoveAll (py "https://") (pyStripWs domain)))) ∧
    ((pyStartsWith (py "http://") (pyStripWs domain) = false ∧
      pyStartsWith (py "https://") (pyStripWs domain) = false) →
      (normalize_cli domain).scheme = py "https" ∧
      (normalize_api domain).scheme =
        (if (normalize_api domain).host = py "localhost" ∨
            (normalize_api domain).host = py "127.0.0.1" ∨
            (normalize_api domain).host = py "::1" then py "http"
         else py "https")) ∧
    (normalize_api domain).host = (normalize_cli domain).host ∧
    (normalize_api domain).base_url =
      (normalize_api domain).scheme ++ py "://" ++ (normalize_api domain).host ∧
    (normalize_cli domain).base_url =
      (normalize_cli domain).scheme ++ py "://" ++ (normalize_cli domain).host ∧
    (∀ a, (normalize_api domain).host.head? = some a → a ≠ '/') ∧
    (∀ a, (normalize_api domain).host.getLast? = some a → a ≠ '/') := by
  refine ⟨?_, ?_, ?_, ?_, rfl, rfl, rfl, ?_, ?_⟩
  · intro hs
    constructor
    · simp [normalize_api, hs]
    · simp [normalize_cli, hs]
  · intro hh hru
    have hns := not_startsWith_https_of_http hh
    constructor
    · simp [normalize_api, hh, hns, hru]
    · simp [normalize_cli, hh, hns, hru]
  · intro hh hru
    have hns := not_startsWith_https_of_http hh
    refine ⟨?_, ?_, ?_⟩
    · simp [normalize_api, hh, hns, hru]
    · simp [normalize_cli, hh, hns, hru]
    · simp [normalize_api, hh, hru]
  · rintro ⟨hh, hs⟩
    constructor
    · simp [normalize_cli, hh, hs]
    · simp [normalize_api, hh, hs]
  · intro a ha
    obtain ⟨x, hx⟩ := normalize_api_host_stripped domain
    rw [hx] at ha
    exact head?_pyStripChar '/' x a ha
  · intro a ha
    obtain ⟨x, hx⟩ := normalize_api_host_stripped domain
    rw [hx] at ha
    exact getLast?_pyStripChar '/' x a ha

/-- Witness for C5 (amended): the rules evaluated at three concrete
inputs — a preserved `https` URL, a preserved well-formed `http` URL, and
a malformed `http` URL taking the except arms — with every hypothesis
discharged there. -/
theorem normalization_rules_witness :
    ((normalize_api (py "https://Example.com/")).scheme = py "https" ∧
     (normalize_cli (py "https://Example.com/")).scheme = py "https") ∧
    ((normalize_api (py "http://example.com")).scheme = py "http" ∧
     (normalize_cli (py "http://example.com")).scheme = py "http") ∧
    ((normalize_api (py "http://[")).scheme = py "https" ∧
     (normalize_cli (py "http://[")).scheme = py "https" ∧
     (normalize_api (py "http://[")).host = pyStripChar '/'
       (pyRemoveAll (py "http://")
         (pyRemoveAll (py "https://") (pyStripWs (py "http://["))))) := by
  exact ⟨(normalization_rules (py "https://Example.com/")).1 (by decide),
    (normalization_rules (py "http://example.com")).2.1 (by decide) (by decide),
    (normalization_rules (py "http://[")).2.2.1 (by decide) (by decide)⟩

/-! C6: custom-profile rejection. -/

/-- C6 amended.  The CLI rejects a missing or empty `--custom-ports` string
before scanning; the service surface never rejects — a `custom` request
with a missing or empty list scans the substituted top-30 set, and a
non-empty list scans its sorted de-duplication.  (A CLI CSV with no
entries, such as `","`, still yields an empty scan set.) -/
theorem custom_ports_resolution (l : List Nat) :
    resolve_ports_cli "custom" none =
      Except.error (PyErr.badParameter
        (py "--custom-ports must be provided when --ports=custom")) ∧
    resolve_ports_cli "custom" (some []) =
      Except.error (PyErr.badParameter
        (py "--custom-ports must be provided when --ports=custom")) ∧
    resolve_ports_api "custom" none = TOP_30_PORTS ∧
    resolve_ports_api "custom" (some l) =
      (if l = [] then TOP_30_PORTS else sortedDedup l) := by
  refine ⟨rfl, rfl, rfl, ?_⟩
  cases l with
  | nil => rfl
  | cons p rest => rfl

/-! C6 counterexample, C1, C8, C9. -/

/-- C6 fails on the code at the service surface: a `custom` profile with a
missing or empty port list is not rejected — `scan_domain` completes the
scan over the substituted top-30 list; the CLI additionally accepts the CSV
`","`, which denotes an empty port list. -/
theorem custom_empty_ports_not_rejected :
    resolve_ports_api "custom" (some []) = TOP_30_PORTS ∧
    resolve_ports_api "custom" none = TOP_30_PORTS ∧
    TOP_30_PORTS ≠ [] ∧
    resolve_ports_cli "custom" (some (py ",")) = Except.ok [] ∧
    (scan_domain env_ok false req_custom_empty 0).map
        (fun o => o.report.ports.map (fun p => p.ports_scanned)) =
      Except.ok (some (sortedDedup TOP_30_PORTS)) := by
  refine ⟨rfl, rfl, by decide, rfl, rfl⟩

/-- C1 fails on the code: on a scan whose probes all fail (unreachable
target) with default toggles, the awaited `fetch_preview` task re-raises
its connection error out of both `scan_domain` and the CLI `domain`
command — the scan raises instead of returning a report with the failed
slots absent.  (`fetch_preview`, `analyze_cookies` and `fingerprint_web`
are the probes with no handler around their HTTP request; every other
probe absorbs its own failures.) -/
theorem scan_raises_when_preview_fails :
    scan_domain env_unreachable false { domain := py "unreachable.invalid" } 0 =
      Except.error (PyErr.connectError (py "All connection attempts failed")) ∧
    cli_domain_run env_unreachable (py "unreachable.invalid") "top30" none {} 0 =
      Except.error (PyErr.connectError (py "All connection attempts failed")) := by
  exact ⟨rfl, rfl⟩

/-- C8.  In every completed scan, at both surfaces, the takeover check is
never invoked when the subdomain probe is disabled (slot absent) or settled
with an empty discovered list — the takeover slot is then absent — and
whenever it was invoked, the subdomain probe had settled with a non-empty
discovered list, which is exactly the list the check received. -/
theorem takeover_runs_only_after_nonempty_subdomains :
    (∀ env avail req t0 out,
      scan_domain env avail req t0 = Except.ok out →
      ((req.scan_subdomains = false →
          out.takeover_invoked = false ∧ out.report.takeover = none) ∧
       (∀ s, out.report.subdomains = some s → s.discovered = [] →
          out.takeover_invoked = false ∧ out.report.takeover = none) ∧
       (out.takeover_invoked = true →
          ∃ s, out.report.subdomains = some s ∧ s.discovered ≠ [] ∧
            out.report.takeover =
              some (check_takeover_candidates env.fetch_body s.discovered)))) ∧
    (∀ env domain profile custom fl t0 out,
      cli_domain_run env domain profile custom fl t0 = Except.ok out →
      ((fl.do_scan_subdomains = false →
          out.takeover_invoked = false ∧ out.report.takeover = none) ∧
       (∀ s, out.report.subdomains = some s → s.discovered = [] →
          out.takeover_invoked = false ∧ out.report.takeover = none) ∧
       (out.takeover_invoked = true →
          ∃ s, out.report.subdomains = some s ∧ s.discovered ≠ [] ∧
            out.report.takeover =
              some (check_takeover_candidates env.fetch_body s.discovered)))) := by
  constructor
  · intro env avail req t0 out h
    rw [scan_domain] at h
    rcases hpv : await_opt req.web_preview env.preview_res with epv | pv <;>
      rw [hpv] at h
    · simp at h
    rcases hck : await_opt req.analyze_cookies env.cookies_res with eck | ck <;>
      rw [hck] at h
    · simp at h
    rcases hfp : await_opt req.fingerprint_web env.fingerprint_res with efp | fp <;>
      rw [hfp] at h
    · simp at h
    simp only [Except.ok.injEq] at h
    subst h
    refine ⟨?_, ?_, ?_⟩
    · intro hsub
      simp [hsub]
    · intro s hs hdisc
      cases hsub : req.scan_subdomains with
      | false => simp [hsub] at hs
      | true =>
        simp [hsub] at hs
        simp [hsub, hs, hdisc]
    · intro hinv
      cases hsub : req.scan_subdomains with
      | false => simp [hsub] at hinv
      | true =>
        by_cases hdisc :
            (enumerate_subdomains env.ct_response env.dns_resolves
              (normalize_api req.domain).host).discovered = []
        · simp [hsub, hdisc] at hinv
        · refine ⟨enumerate_subdomains env.ct_response env.dns_resolves
            (normalize_api req.domain).host, by simp [hsub], hdisc, ?_⟩
          simp [hsub, hdisc]
  · intro env domain profile custom fl t0 out h
    rw [cli_domain_run] at h
    rcases hpl : resolve_ports_cli profile custom with ep | pl <;> rw [hpl] at h
    · simp at h
    rcases hpv : await_opt fl.web_preview env.preview_res with epv | pv <;>
      rw [hpv] at h
    · simp at h
    rcases hck : await_opt fl.analyze_cookies_opt env.cookies_res with eck | ck <;>
      rw [hck] at h
    · simp at h
    rcases hfp : await_opt fl.fingerprint_web_opt env.fingerprint_res with efp | fp <;>
      rw [hfp] at h
    · simp at h
    simp only [Except.ok.injEq] at h
    subst h
    refine ⟨?_, ?_, ?_⟩
    · intro hsub
      simp [hsub]
    · intro s hs hdisc
      cases hsub : fl.do_scan_subdomains with
      | false => simp [hsub] at hs
      | true =>
        simp [hsub] at hs
        simp [hsub, hs, hdisc]
    · intro hinv
      cases hsub : fl.do_scan_subdomains with
      | false => simp [hsub] at hinv
      | true =>
        by_cases hdisc :
            (enumerate_subdomains env.ct_response env.dns_resolves
              (normalize_cli domain).host).discovered = []
        · simp [hsub, hdisc] at hinv
        · refine ⟨enumerate_subdomains env.ct_response env.dns_resolves
            (normalize_cli domain).host, by simp [hsub], hdisc, ?_⟩
          simp [hsub, hdisc]

/-- Witness for C8: a concrete completed scan with the subdomain probe
disabled; the takeover check was not invoked and its slot is absent. -/
theorem takeover_runs_only_after_nonempty_subdomains_witness :
    (scan_domain env_ok false req_no_subs 0).map
        (fun o => (o.takeover_invoked, o.report.takeover)) =
      Except.ok (false, none) := by
  obtain ⟨out, hout⟩ :
      ∃ out, scan_domain env_ok false req_no_subs 0 = Except.ok out := ⟨_, rfl⟩
  have h := (takeover_runs_only_after_nonempty_subdomains.1
    env_ok false req_no_subs 0 out hout).1 rfl
  rw [hout]
  simp [Except.map, h.1, h.2]

/-- C9.  When the native shim is unavailable, every `scan_ports_native`
call raises `RuntimeError` rather than returning results, the availability
check reports false, the orchestrator's behaviour does not depend on
availability at all (api.py never consults the shim), and the port slot of
every completed scan is exactly the default `scan_ports` report — so the
externally observable port-scan behaviour is that of the default scanner. -/
theorem native_unavailable_means_default_scanner :
    (∀ impl host ports tms conc, scan_ports_native impl false host ports tms conc =
        Except.error (PyErr.runtimeError (py "Native extension not available"))) ∧
    scan_ports_native_available false = false ∧
    (∀ env a b req t0, scan_domain env a req t0 = scan_domain env b req t0) ∧
    (∀ env avail req t0 out, scan_domain env avail req t0 = Except.ok out →
      out.report.ports =
        (if req.scan_ports then
          some (scan_ports env.net (normalize_api req.domain).host
            (resolve_ports_api req.port_profile req.custom_ports))
        else none)) := by
  refine ⟨fun impl host ports tms conc => rfl, rfl, fun env a b req t0 => rfl, ?_⟩
  intro env avail req t0 out h
  rw [scan_domain] at h
  rcases hpv : await_opt req.web_preview env.preview_res with epv | pv <;>
    rw [hpv] at h
  · simp at h
  rcases hck : await_opt req.analyze_cookies env.cookies_res with eck | ck <;>
    rw [hck] at h
  · simp at h
  rcases hfp : await_opt req.fingerprint_web env.fingerprint_res with efp | fp <;>
    rw [hfp] at h
  · simp at h
  simp only [Except.ok.injEq] at h
  subst h
  rfl

/-- Witness for C9: the fallback at a concrete completed scan — the report
carries the default scanner's output for the top-30 profile. -/
theorem native_unavailable_means_default_scanner_witness :
    (scan_domain env_ok false req_no_subs 0).map (fun o => o.report.ports) =
      Except.ok (some (scan_ports env_ok.net
        (normalize_api req_no_subs.domain).host
        (resolve_ports_api req_no_subs.port_profile req_no_subs.custom_ports))) := by
  obtain ⟨out, hout⟩ :
      ∃ out, scan_domain env_ok false req_no_subs 0 = Except.ok out := ⟨_, rfl⟩
  have h := native_unavailable_means_default_scanner.2.2.2
    env_ok false req_no_subs 0 out hout
  rw [hout]
  simp only [Except.map, h]
  rfl

end SentinelScope
